import Mathlib

/-!
Verification of the zigQuant data-pipeline scripts.

Shallow embedding of the Python sources:
  - src/scripts/fix_1s_timestamps.py     (timestamp unit reconciler)
  - src/scripts/convert_1s_streaming.py  (streaming ordering/dedup engine)
  - src/scripts/convert_all_data.py      (bulk ordering/dedup engine)
  - src/data/convert_binance_to_zigquant.py (canonicalizer / decoder selection)
  - src/scripts/download_all_timeframes.py  (retrying fetcher)

Lines of text are Lean `String`s; a decoded archive is a `List String` of its
lines; a canonical record is a `List String` of its fields.
-/

/-- Embeds the timestamp fix of src/scripts/fix_1s_timestamps.py lines 61-64:
`if len(timestamp) == 16: parts[0] = timestamp[:-3]`. A Python `str` of length
16 sliced by `[:-3]` keeps its first 13 characters. -/
def reconcile (s : String) : String :=
  if s.length = 16 then ⟨s.data.take 13⟩ else s

/-- Embeds Python `str.strip()`: remove leading and trailing whitespace
(the data handled is ASCII, so ASCII whitespace suffices). -/
def pyStrip (s : String) : String :=
  ⟨((s.data.dropWhile Char.isWhitespace).reverse.dropWhile
      Char.isWhitespace).reverse⟩

/-- Helper of `pySplit`: `cur` holds the characters of the current field,
most recent first. -/
def splitAux : List Char → List Char → List String
  | [], cur => [⟨cur.reverse⟩]
  | c :: cs, cur =>
      if c = ',' then (⟨cur.reverse⟩ : String) :: splitAux cs []
      else splitAux cs (c :: cur)

/-- Embeds Python `line.split(",")`: cut the line at every comma, keeping
empty fields; the result is never empty. -/
def pySplit (s : String) : List String := splitAux s.data []

/-- Embeds Python `f.endswith(suffix)`. -/
def ends_with (suffix f : String) : Bool := suffix.data.isSuffixOf f.data

/-- Embeds the field projection shared by the converters
(src/data/convert_binance_to_zigquant.py lines 53-57,
src/scripts/convert_all_data.py lines 91-102): split the line on commas,
require at least 6 fields, keep exactly the first 6. -/
def canonicalize (line : String) : Option (List String) :=
  let fields := pySplit line
  if 6 ≤ fields.length then some (fields.take 6) else none

/-- State of the streaming converter (src/scripts/convert_1s_streaming.py
lines 66-115): the last emitted timestamp text, the duplicate counter, the
candle counter, and the records written to the output file. -/
structure StreamState where
  last_timestamp : Option String
  duplicates_skipped : Nat
  total_candles : Nat
  emitted : List (List String)
deriving DecidableEq

/-- The initial streaming state (lines 67-69 of convert_1s_streaming.py):
`last_timestamp = None`, counters zero, nothing written yet. -/
def initStream : StreamState := ⟨none, 0, 0, []⟩

/-- Embeds the per-line body of the streaming loop
(src/scripts/convert_1s_streaming.py lines 92-112): strip the line, skip it if
blank, split on commas, skip it if fewer than 6 fields; otherwise compare the
first field with `last_timestamp`, counting a duplicate on equality and
emitting the first six fields otherwise. -/
def streamLine (st : StreamState) (raw : String) : StreamState :=
  let line := pyStrip raw
  if line = "" then st
  else
    let parts := pySplit line
    if 6 ≤ parts.length then
      let timestamp := parts.headD ("")
      if some timestamp = st.last_timestamp then
        { st with duplicates_skipped := st.duplicates_skipped + 1 }
      else
        { st with
            last_timestamp := some timestamp,
            total_candles := st.total_candles + 1,
            emitted := st.emitted ++ [parts.take 6] }
    else st

/-- One archive of the streaming run: fold the line loop over the decoded
lines, carrying the state across (lines 91-112). -/
def streamFile (st : StreamState) (lines : List String) : StreamState :=
  lines.foldl streamLine st

/-- The whole streaming run over archives visited in order (lines 76-115);
`last_timestamp` and the counters persist across archive boundaries. -/
def streamArchives (archives : List (List String)) : StreamState :=
  archives.foldl streamFile initStream

/-- Timestamps of the records written by a streaming run, in output order. -/
def emittedTimestamps (st : StreamState) : List String :=
  st.emitted.map (fun r => r.headD (""))

/-- Timestamp field of a canonical record (field 0). -/
def rowTs (r : List String) : String := r.headD ("")

/-- Helper of `int_of`: the base-10 value of a digit sequence. -/
def digitsToNat : List Char → Nat → Nat
  | [], acc => acc
  | c :: cs, acc => digitsToNat cs (acc * 10 + (c.toNat - 48))

/-- Embeds Python `int()` on the timestamp text used as the sort key
(src/scripts/convert_all_data.py line 115): an optional leading minus sign
followed by base-10 digits; defined on well-formed integer text such as the
timestamp fields of this data set (leading zeros are accepted, as in
Python). -/
def int_of (s : String) : Int :=
  match s.data with
  | '-' :: ds => -(digitsToNat ds 0 : Int)
  | ds => (digitsToNat ds 0 : Int)

/-- Stable insertion of a row into a list sorted by the integer value of the
timestamp: the new row goes after every row whose key is less than or equal to
its own, so rows with equal keys keep their encounter order. -/
def insertByTs (r : List String) : List (List String) → List (List String)
  | [] => [r]
  | s :: rest =>
      if int_of (rowTs s) ≤ int_of (rowTs r) then s :: insertByTs r rest
      else r :: s :: rest

/-- Embeds `all_rows.sort(key=lambda x: int(x[0]))`
(src/scripts/convert_all_data.py line 115): a stable sort by the integer value
of the timestamp field, ascending. -/
def sortByTs (rows : List (List String)) : List (List String) :=
  rows.foldl (fun acc r => insertByTs r acc) []

/-- Embeds the duplicate-removal pass of src/scripts/convert_all_data.py lines
117-124: a row is kept exactly when its timestamp text is not in the
`seen_timestamps` set, which then grows by that text. -/
def dedupRows : List (List String) → List String → List (List String)
  | [], _ => []
  | r :: rs, seen =>
      if rowTs r ∈ seen then dedupRows rs seen
      else r :: dedupRows rs (rowTs r :: seen)

/-- Rows extracted from one decoded archive (src/scripts/convert_all_data.py
lines 88-102): blank lines skipped, short lines skipped, first six fields
kept. -/
def extractRows (lines : List String) : List (List String) :=
  lines.filterMap (fun line => if line = "" then none else canonicalize line)

/-- Embeds the bulk pipeline of `convert_timeframe`
(src/scripts/convert_all_data.py lines 78-130): collect rows from all
archives, sort by integer timestamp, remove duplicate timestamps with a seen
set. Returns the unique rows and the number of rows dropped as duplicates. -/
def convert_timeframe (archives : List (List String)) :
    List (List String) × Nat :=
  let all_rows := archives.foldl (fun acc lines => acc ++ extractRows lines) []
  let sorted := sortByTs all_rows
  let unique := dedupRows sorted []
  (unique, sorted.length - unique.length)

/-- Modelled from the spec words, for comparison with `dedupRows` (§4.5 bulk
mode): removes every record whose timestamp equals the immediately preceding
kept record's timestamp. -/
def dedupAdjacentSpec : List (List String) → Option String → List (List String)
  | [], _ => []
  | r :: rs, prev =>
      if some (rowTs r) = prev then dedupAdjacentSpec rs prev
      else r :: dedupAdjacentSpec rs (some (rowTs r))

/-- The bulk pipeline as the spec's words describe its dedup pass: sort, then
drop records equal in timestamp to the immediately preceding kept record. -/
def convert_timeframe_spec (archives : List (List String)) :
    List (List String) :=
  let all_rows := archives.foldl (fun acc lines => acc ++ extractRows lines) []
  dedupAdjacentSpec (sortByTs all_rows) none

/-- Embeds the inner-data-file selection shared by the three converters
(src/data/convert_binance_to_zigquant.py lines 35-41,
src/scripts/convert_all_data.py lines 82-86,
src/scripts/convert_1s_streaming.py lines 84-91): filter the namelist for
entries ending in ".csv"; if none, report no file (the archive is skipped);
otherwise open `csv_files[0]`, the first candidate. -/
def find_csv (namelist : List String) : Option String :=
  let csv_files := namelist.filter (fun f => ends_with (".csv") f)
  match csv_files with
  | [] => none
  | c :: _ => some c

/-- Outcome of one network attempt inside `download_file`
(src/scripts/download_all_timeframes.py lines 44-81): the request succeeds and
the body is saved; the server answers 404; the server answers another HTTP
error code; or a transient transport error occurs, possibly after part of the
body was already written to the destination. -/
inductive AttemptOutcome where
  | success (content : String)
  | http404
  | httpError (code : Nat)
  | transientFail (part : Option String)
deriving DecidableEq

/-- Observable result of `download_file`: the boolean the Python function
returns, how many network attempts were made, the backoff sleeps performed (in
seconds), and what the destination file holds when the function returns. -/
structure DownloadResult where
  ok : Bool
  attemptsMade : Nat
  sleeps : List Nat
  savedFile : Option String
deriving DecidableEq

/-- The attempt loop of `download_file`
(src/scripts/download_all_timeframes.py lines 44-83). The list holds the
outcome of each attempt the loop would make; `attempt` is the Python loop
index. Success returns `True` with the body saved; a 404 returns `False`
immediately; another HTTP error retries without sleeping; a transient error
sleeps `2 ** attempt` seconds when `attempt < max_retries - 1` and retries,
leaving any partial body at the destination. The loop falling through returns
`False`. -/
def download_file_go : List AttemptOutcome → Nat → Nat → List Nat →
    Option String → DownloadResult
  | [], attempt, _, sleeps, file =>
      { ok := false, attemptsMade := attempt, sleeps := sleeps,
        savedFile := file }
  | out :: rest, attempt, max_retries, sleeps, file =>
      match out with
      | .success content =>
          { ok := true, attemptsMade := attempt + 1, sleeps := sleeps,
            savedFile := some content }
      | .http404 =>
          { ok := false, attemptsMade := attempt + 1, sleeps := sleeps,
            savedFile := file }
      | .httpError _ =>
          download_file_go rest (attempt + 1) max_retries sleeps file
      | .transientFail p =>
          download_file_go rest (attempt + 1) max_retries
            (if attempt + 1 < max_retries then sleeps ++ [2 ^ attempt]
             else sleeps)
            (match p with | some c => some c | none => file)

/-- Embeds `download_file(url, save_path, max_retries)`: run the attempt loop
for at most `max_retries` attempts, starting with no file at the
destination. -/
def download_file (outcomes : List AttemptOutcome) (max_retries : Nat) :
    DownloadResult :=
  download_file_go (outcomes.take max_retries) 0 max_retries [] none

/-- What `download_timeframe` records for one file
(src/scripts/download_all_timeframes.py lines 124-132): which counter was
incremented and what remains at the destination path. -/
structure CallerState where
  downloaded : Nat
  failed : Nat
  fileOnDisk : Option String
deriving DecidableEq

/-- Embeds the caller's handling of one download
(src/scripts/download_all_timeframes.py lines 124-132): branch on the boolean
alone; on `True` count it downloaded, on `False` remove any partial file and
count it failed. -/
def download_timeframe_step (outcomes : List AttemptOutcome) : CallerState :=
  let r := download_file outcomes 3
  if r.ok then { downloaded := 1, failed := 0, fileOnDisk := r.savedFile }
  else { downloaded := 0, failed := 1, fileOnDisk := none }

/-! ## Helper lemmas -/

/-- The length of a string built from a character list is that list's
length. -/
theorem string_length_mk (l : List Char) : (⟨l⟩ : String).length = l.length :=
  rfl

/-- A non-blank line with at least 6 fields whose timestamp differs from the
last emitted one is emitted: the record is appended, the candle counter grows
and the last timestamp is updated. -/
theorem streamLine_emits (st : StreamState) (raw : String)
    (hb : pyStrip raw ≠ "") (hn : 6 ≤ (pySplit (pyStrip raw)).length)
    (he : some ((pySplit (pyStrip raw)).headD ("")) ≠ st.last_timestamp) :
    streamLine st raw =
      { st with
          last_timestamp := some ((pySplit (pyStrip raw)).headD ("")),
          total_candles := st.total_candles + 1,
          emitted := st.emitted ++ [(pySplit (pyStrip raw)).take 6] } := by
  simp only [List.headD_eq_head?_getD] at he
  simp [streamLine, hb, hn, he]

/-- A non-blank line with at least 6 fields whose timestamp equals the last
emitted one is dropped and only the duplicate counter grows. -/
theorem streamLine_drops (st : StreamState) (raw : String)
    (hb : pyStrip raw ≠ "") (hn : 6 ≤ (pySplit (pyStrip raw)).length)
    (he : some ((pySplit (pyStrip raw)).headD ("")) = st.last_timestamp) :
    streamLine st raw =
      { st with duplicates_skipped := st.duplicates_skipped + 1 } := by
  simp only [List.headD_eq_head?_getD] at he
  simp [streamLine, hb, hn, he]

/-- Timestamps already in the seen set never reappear among the rows kept by
`dedupRows`. -/
theorem dedupRows_not_seen (rows : List (List String)) :
    ∀ seen t, t ∈ seen → t ∉ (dedupRows rows seen).map rowTs := by
  induction rows with
  | nil => intro seen t _; simp [dedupRows]
  | cons r rs ih =>
      intro seen t ht
      simp only [dedupRows]
      by_cases h : rowTs r ∈ seen
      · rw [if_pos h]; exact ih seen t ht
      · rw [if_neg h]
        simp only [List.map_cons, List.mem_cons, not_or]
        refine ⟨fun he => h (he ▸ ht), ?_⟩
        exact ih (rowTs r :: seen) t (List.mem_cons_of_mem _ ht)

/-- The rows kept by `dedupRows` have pairwise distinct timestamp texts. -/
theorem dedupRows_nodup (rows : List (List String)) :
    ∀ seen, ((dedupRows rows seen).map rowTs).Nodup := by
  induction rows with
  | nil => intro seen; simp [dedupRows]
  | cons r rs ih =>
      intro seen
      simp only [dedupRows]
      by_cases h : rowTs r ∈ seen
      · rw [if_pos h]; exact ih seen
      · rw [if_neg h]
        simp only [List.map_cons, List.nodup_cons]
        exact ⟨dedupRows_not_seen rs (rowTs r :: seen) (rowTs r)
          (List.mem_cons_self _ _), ih _⟩

/-- Every input row's timestamp is either already in the seen set or among
the kept rows' timestamps. -/
theorem dedupRows_covers (rows : List (List String)) :
    ∀ seen r, r ∈ rows →
      rowTs r ∈ seen ∨ rowTs r ∈ (dedupRows rows seen).map rowTs := by
  induction rows with
  | nil => intro seen r hr; cases hr
  | cons q rs ih =>
      intro seen r hr
      simp only [dedupRows]
      by_cases h : rowTs q ∈ seen
      · rw [if_pos h]
        rcases List.mem_cons.mp hr with he | hm
        · left; rw [he]; exact h
        · exact ih seen r hm
      · rw [if_neg h]
        simp only [List.map_cons, List.mem_cons]
        rcases List.mem_cons.mp hr with he | hm
        · right; left; rw [he]
        · rcases ih (rowTs q :: seen) r hm with hs | hd
          · rcases List.mem_cons.mp hs with he2 | hs2
            · right; left; exact he2
            · left; exact hs2
          · right; right; exact hd

/-- The rows kept by `dedupRows` are a subsequence of the input rows. -/
theorem dedupRows_sublist (rows : List (List String)) :
    ∀ seen, List.Sublist (dedupRows rows seen) rows := by
  induction rows with
  | nil => intro seen; simp [dedupRows]
  | cons r rs ih =>
      intro seen
      simp only [dedupRows]
      by_cases h : rowTs r ∈ seen
      · rw [if_pos h]; exact (ih seen).cons r
      · rw [if_neg h]; exact (ih _).cons₂ r

/-! ## Claims -/

/-- C9: the timestamp reconciler is idempotent: for every timestamp text
`x`, `reconcile (reconcile x) = reconcile x`; in particular a 13-digit value
is unaffected by the transform. -/
theorem C9_reconcile_idempotent (x : String) :
    reconcile (reconcile x) = reconcile x := by
  unfold reconcile
  by_cases h : x.length = 16
  · have hx : x.data.length = 16 := h
    simp [h, string_length_mk, List.length_take, hx]
  · simp [h]

/-- C3: on all-digit timestamp text the reconciler truncates the last 3
digits exactly when the text has 16 digits and passes any other digit width
through unchanged; with the spec's two concrete checks: 16-digit truncation
and 13-digit passthrough. -/
theorem C3_reconcile_rule (x : String) (_hd : x.data.all Char.isDigit) :
    (x.length = 16 → (reconcile x).data = x.data.take (x.data.length - 3)) ∧
    (x.length ≠ 16 → reconcile x = x) ∧
    reconcile ("1735689600000000") = "1735689600000" ∧
    reconcile ("1706147569000") = "1706147569000" := by
  refine ⟨?_, ?_, by decide, by decide⟩
  · intro h
    have hx : x.data.length = 16 := h
    simp [reconcile, h, hx]
  · intro h
    simp [reconcile, h]

/-- Witness for C3 at the spec's 16-digit example input. -/
theorem C3_reconcile_rule_witness :
    ("1735689600000000".data.all Char.isDigit) ∧
    ((("1735689600000000" : String).length = 16 →
        (reconcile ("1735689600000000")).data =
          "1735689600000000".data.take ("1735689600000000".data.length - 3)) ∧
      (("1735689600000000" : String).length ≠ 16 →
        reconcile ("1735689600000000") = "1735689600000000") ∧
      reconcile ("1735689600000000") = "1735689600000" ∧
      reconcile ("1706147569000") = "1706147569000") :=
  ⟨by decide, C3_reconcile_rule ("1735689600000000") (by decide)⟩

/-- C4: any line splitting into at least 6 fields canonicalizes to a record
of exactly its first six fields, positionally, each preserved unchanged,
whatever the total field count. -/
theorem C4_canonical_projection (line : String)
    (h : 6 ≤ (pySplit line).length) :
    canonicalize line = some ((pySplit line).take 6) ∧
    ((pySplit line).take 6).length = 6 ∧
    (∀ i, i < 6 → ((pySplit line).take 6)[i]? = (pySplit line)[i]?) := by
  refine ⟨by simp [canonicalize, h], ?_, ?_⟩
  · simp only [List.length_take]
    omega
  · intro i hi
    exact List.getElem?_take_of_lt hi

/-- Witness for C4 at a 12-field Binance kline row. -/
theorem C4_canonical_projection_witness :
    6 ≤ (pySplit ("1706147569000,42000.1,42010.5,41990.0,42005.3,12.5,1706147570000,524062.5,100,6.2,260031.2,0")).length ∧
    (canonicalize ("1706147569000,42000.1,42010.5,41990.0,42005.3,12.5,1706147570000,524062.5,100,6.2,260031.2,0") =
        some ((pySplit ("1706147569000,42000.1,42010.5,41990.0,42005.3,12.5,1706147570000,524062.5,100,6.2,260031.2,0")).take 6) ∧
      ((pySplit ("1706147569000,42000.1,42010.5,41990.0,42005.3,12.5,1706147570000,524062.5,100,6.2,260031.2,0")).take 6).length = 6 ∧
      (∀ i, i < 6 →
        ((pySplit ("1706147569000,42000.1,42010.5,41990.0,42005.3,12.5,1706147570000,524062.5,100,6.2,260031.2,0")).take 6)[i]? =
          (pySplit ("1706147569000,42000.1,42010.5,41990.0,42005.3,12.5,1706147570000,524062.5,100,6.2,260031.2,0"))[i]?)) :=
  ⟨by decide,
   C4_canonical_projection ("1706147569000,42000.1,42010.5,41990.0,42005.3,12.5,1706147570000,524062.5,100,6.2,260031.2,0") (by decide)⟩

/-- C6 counterexample: an archive whose namelist holds two ".csv" candidates
is not reported as a decode error; the first candidate is chosen silently. -/
theorem C6_counterexample :
    (["a.csv", "b.csv"].filter (fun f => ends_with (".csv") f)).length = 2 ∧
    find_csv ["a.csv", "b.csv"] = some ("a.csv") := by decide

/-- C6 amended: with zero ".csv" candidates the decoder reports no data file,
so the caller skips the archive and continues; with one or more candidates the
first one in namelist order is chosen, silently even when several exist. -/
theorem C6_first_candidate (namelist : List String) :
    (namelist.filter (fun f => ends_with (".csv") f) = [] →
      find_csv namelist = none) ∧
    (∀ c rest, namelist.filter (fun f => ends_with (".csv") f) = c :: rest →
      find_csv namelist = some c) := by
  constructor
  · intro h; simp [find_csv, h]
  · intro c rest h; simp [find_csv, h]

/-- Witness for C6 at a csv-free namelist and at a two-candidate namelist. -/
theorem C6_first_candidate_witness :
    find_csv ["x.txt"] = none ∧
    find_csv ["a.csv", "data.txt", "b.csv"] = some ("a.csv") :=
  ⟨(C6_first_candidate ["x.txt"]).1 (by decide),
   (C6_first_candidate ["a.csv", "data.txt", "b.csv"]).2 ("a.csv") ["b.csv"]
     (by decide)⟩

/-- C5 counterexample: feeding a 3-field line to the streaming loop at a
concrete state returns exactly the same state: the row is dropped and not
written, but no counter of the program is incremented, because the code keeps
no rejection count for short rows. -/
theorem C5_counterexample :
    streamLine ⟨some ("9"), 4, 1, [["9", "o", "h", "l", "c", "v"]]⟩ ("1,2,3") =
      ⟨some ("9"), 4, 1, [["9", "o", "h", "l", "c", "v"]]⟩ := by decide

/-- C5 amended: every line with fewer than 6 fields is dropped: it is never
written to the output and the whole streaming state, every counter included,
is unchanged (the code maintains no rejection count); processing continues
within the same archive since the fold proceeds with the same state. -/
theorem C5_short_row_dropped (st : StreamState) (raw : String)
    (h : (pySplit (pyStrip raw)).length < 6) :
    streamLine st raw = st := by
  unfold streamLine
  by_cases hb : pyStrip raw = ""
  · simp [hb]
  · have h6 : ¬ 6 ≤ (pySplit (pyStrip raw)).length := by omega
    simp [hb, h6]

/-- Witness for C5 at a concrete 5-field row. -/
theorem C5_short_row_dropped_witness :
    (pySplit (pyStrip ("1,2,3,4,5"))).length < 6 ∧
    streamLine initStream ("1,2,3,4,5") = initStream :=
  ⟨by decide, C5_short_row_dropped initStream ("1,2,3,4,5") (by decide)⟩

/-- C1: the streaming engine drops a record whose timestamp equals the last
emitted one, incrementing only the duplicate counter, and otherwise emits the
record and updates the last emitted timestamp; with the state persisting
across archive boundaries, archives with timestamp sequences [1,1,2] then
[2,3,3,4] yield output timestamps exactly [1,2,3,4] with 3 duplicates
counted. -/
theorem C1_streaming_dedup :
    (∀ st raw, pyStrip raw ≠ "" → 6 ≤ (pySplit (pyStrip raw)).length →
      (some ((pySplit (pyStrip raw)).headD ("")) = st.last_timestamp →
        streamLine st raw =
          { st with duplicates_skipped := st.duplicates_skipped + 1 }) ∧
      (some ((pySplit (pyStrip raw)).headD ("")) ≠ st.last_timestamp →
        streamLine st raw =
          { st with
              last_timestamp := some ((pySplit (pyStrip raw)).headD ("")),
              total_candles := st.total_candles + 1,
              emitted := st.emitted ++ [(pySplit (pyStrip raw)).take 6] })) ∧
    emittedTimestamps (streamArchives
      [["1,o,h,l,c,v", "1,o,h,l,c,v", "2,o,h,l,c,v"],
       ["2,o,h,l,c,v", "3,o,h,l,c,v", "3,o,h,l,c,v", "4,o,h,l,c,v"]]) =
      ["1", "2", "3", "4"] ∧
    (streamArchives
      [["1,o,h,l,c,v", "1,o,h,l,c,v", "2,o,h,l,c,v"],
       ["2,o,h,l,c,v", "3,o,h,l,c,v", "3,o,h,l,c,v", "4,o,h,l,c,v"]]).duplicates_skipped
      = 3 := by
  refine ⟨?_, by decide, by decide⟩
  intro st raw hb hn
  exact ⟨streamLine_drops st raw hb hn, streamLine_emits st raw hb hn⟩

/-- Witness for C1: one fresh record is emitted from the initial state. -/
theorem C1_streaming_dedup_witness :
    streamLine initStream ("1,o,h,l,c,v") =
      { initStream with
          last_timestamp := some ((pySplit (pyStrip ("1,o,h,l,c,v"))).headD ("")),
          total_candles := initStream.total_candles + 1,
          emitted := initStream.emitted ++
            [(pySplit (pyStrip ("1,o,h,l,c,v"))).take 6] } :=
  (C1_streaming_dedup.1 initStream ("1,o,h,l,c,v") (by decide) (by decide)).2
    (by decide)

/-- C2 counterexample: with timestamp texts "5", "05", "5" (all of integer
value 5, so the sort leaves them in encounter order), the code's seen-set
dedup keeps timestamps ["5", "05"], while the claim's rule, dropping only
records equal to the immediately preceding kept record's timestamp, keeps
["5", "05", "5"]: the claim's description of bulk dedup does not match the
code. -/
theorem C2_counterexample :
    ((convert_timeframe
        [["5,a,a,a,a,a", "05,b,b,b,b,b", "5,c,c,c,c,c"]]).1.map rowTs
      = ["5", "05"]) ∧
    ((convert_timeframe_spec
        [["5,a,a,a,a,a", "05,b,b,b,b,b", "5,c,c,c,c,c"]]).map rowTs
      = ["5", "05", "5"]) ∧
    (convert_timeframe [["5,a,a,a,a,a", "05,b,b,b,b,b", "5,c,c,c,c,c"]]).1 ≠
      convert_timeframe_spec
        [["5,a,a,a,a,a", "05,b,b,b,b,b", "5,c,c,c,c,c"]] := by decide

/-- C2 amended: bulk mode sorts by integer timestamp ascending and then keeps
each record whose timestamp text was not kept before (a seen set, first
occurrence wins): the kept rows are a subsequence of the sorted input, their
timestamp texts are pairwise distinct, every input timestamp text still
occurs among them, and for records with timestamps [5,3,5,1,3] the output
timestamps are exactly [1,3,5] with 2 duplicates dropped. -/
theorem C2_bulk_dedup (rows : List (List String)) :
    List.Sublist (dedupRows rows []) rows ∧
    ((dedupRows rows []).map rowTs).Nodup ∧
    (∀ r, r ∈ rows → rowTs r ∈ (dedupRows rows []).map rowTs) ∧
    (convert_timeframe
        [["5,a,a,a,a,a", "3,b,b,b,b,b", "5,c,c,c,c,c", "1,d,d,d,d,d",
          "3,e,e,e,e,e"]]).1.map rowTs = ["1", "3", "5"] ∧
    (convert_timeframe
        [["5,a,a,a,a,a", "3,b,b,b,b,b", "5,c,c,c,c,c", "1,d,d,d,d,d",
          "3,e,e,e,e,e"]]).2 = 2 := by
  refine ⟨dedupRows_sublist rows [], dedupRows_nodup rows [], ?_,
    by decide, by decide⟩
  intro r hr
  rcases dedupRows_covers rows [] r hr with hs | hk
  · cases hs
  · exact hk

/-- Witness for C2 amended: the second physical "5"-row's timestamp is still
present among the rows kept from a two-row list. -/
theorem C2_bulk_dedup_witness :
    ["5", "y", "y", "y", "y", "y"] ∈
      [["5", "x", "x", "x", "x", "x"], ["5", "y", "y", "y", "y", "y"]] ∧
    rowTs ["5", "y", "y", "y", "y", "y"] ∈
      (dedupRows [["5", "x", "x", "x", "x", "x"],
        ["5", "y", "y", "y", "y", "y"]] []).map rowTs :=
  ⟨by decide,
   (C2_bulk_dedup [["5", "x", "x", "x", "x", "x"],
      ["5", "y", "y", "y", "y", "y"]]).2.2.1
     ["5", "y", "y", "y", "y", "y"] (by decide)⟩

/-- C7 counterexample: the run that hits a 404 and the run that exhausts its
three transient-error attempts both return the same boolean False, and the
caller's resulting state is identical in the two cases, so the NotFound
outcome is not distinguishable by the caller from the Failed outcome. -/
theorem C7_counterexample :
    (download_file [.http404] 3).ok =
      (download_file [.transientFail none, .transientFail none,
        .transientFail none] 3).ok ∧
    download_timeframe_step [.http404] =
      download_timeframe_step [.transientFail none, .transientFail none,
        .transientFail none] := by decide

/-- C7 amended: a 404 on the first attempt makes the fetch return False after
exactly one network attempt with no backoff sleep, whatever outcomes would
have followed (it is never retried); but that return value is the same
boolean False produced by exhausted transient retries, and the caller, which
branches on the boolean alone, ends in the identical state in both cases. -/
theorem C7_notfound_one_attempt (rest : List AttemptOutcome) :
    (download_file (.http404 :: rest) 3).ok = false ∧
    (download_file (.http404 :: rest) 3).attemptsMade = 1 ∧
    (download_file (.http404 :: rest) 3).sleeps = [] ∧
    download_timeframe_step [.http404] =
      download_timeframe_step [.transientFail none, .transientFail none,
        .transientFail none] :=
  ⟨rfl, rfl, rfl, by decide⟩

/-- C8: a transient attempt is retried (a transient error followed by a
success yields True on the second attempt), and three transient attempts
exhaust the budget of 3: the fetch returns False having made exactly 3
attempts, sleeping 1 then 2 seconds between them (base delay doubling), and
after the caller removes the partial file nothing remains at the destination
path. -/
theorem C8_transient_retries (p1 p2 p3 : Option String) (body : String) :
    (download_file [.transientFail p1, .success body] 3).ok = true ∧
    (download_file [.transientFail p1, .success body] 3).attemptsMade = 2 ∧
    (download_file [.transientFail p1, .transientFail p2,
        .transientFail p3] 3).ok = false ∧
    (download_file [.transientFail p1, .transientFail p2,
        .transientFail p3] 3).attemptsMade = 3 ∧
    (download_file [.transientFail p1, .transientFail p2,
        .transientFail p3] 3).sleeps = [1, 2] ∧
    download_timeframe_step [.transientFail p1, .transientFail p2,
        .transientFail p3] =
      { downloaded := 0, failed := 1, fileOnDisk := none } := by
  cases p1 <;> cases p2 <;> cases p3 <;>
    exact ⟨rfl, rfl, rfl, rfl, rfl, rfl⟩

/-- C10: duplicate detection compares timestamp texts exactly, not their
numeric values: in streaming mode any record whose timestamp text differs from
the last emitted one is emitted, and in bulk mode two records whose timestamp
texts differ but share one integer value are both kept; concretely the
16-digit microsecond and 13-digit millisecond forms of one instant are both
emitted by the streaming engine, and records timestamped "05" and "5" are
both kept by the bulk engine. -/
theorem C10_text_comparison :
    (∀ st raw, pyStrip raw ≠ "" → 6 ≤ (pySplit (pyStrip raw)).length →
      some ((pySplit (pyStrip raw)).headD ("")) ≠ st.last_timestamp →
      (streamLine st raw).emitted =
        st.emitted ++ [(pySplit (pyStrip raw)).take 6]) ∧
    (∀ r1 r2, rowTs r1 ≠ rowTs r2 → int_of (rowTs r1) = int_of (rowTs r2) →
      dedupRows (sortByTs [r1, r2]) [] = [r1, r2]) ∧
    emittedTimestamps (streamFile initStream
        ["1735689600000000,o,h,l,c,v", "1735689600000,o,h,l,c,v"]) =
      ["1735689600000000", "1735689600000"] ∧
    (convert_timeframe [["05,a,a,a,a,a", "5,b,b,b,b,b"]]).1.map rowTs =
      ["05", "5"] := by
  refine ⟨?_, ?_, by decide, by decide⟩
  · intro st raw hb hn he
    rw [streamLine_emits st raw hb hn he]
  · intro r1 r2 hne hint
    have hsort : sortByTs [r1, r2] = [r1, r2] := by
      simp [sortByTs, insertByTs, le_of_eq hint]
    rw [hsort]
    simp [dedupRows, Ne.symm hne]

/-- Witness for C10 at the concrete pairs from the claim. -/
theorem C10_text_comparison_witness :
    (streamLine initStream ("1735689600000000,o,h,l,c,v")).emitted =
      initStream.emitted ++
        [(pySplit (pyStrip ("1735689600000000,o,h,l,c,v"))).take 6] ∧
    dedupRows (sortByTs [["05", "a", "a", "a", "a", "a"],
        ["5", "b", "b", "b", "b", "b"]]) [] =
      [["05", "a", "a", "a", "a", "a"], ["5", "b", "b", "b", "b", "b"]] :=
  ⟨C10_text_comparison.1 initStream ("1735689600000000,o,h,l,c,v")
      (by decide) (by decide) (by decide),
   C10_text_comparison.2.1 ["05", "a", "a", "a", "a", "a"]
      ["5", "b", "b", "b", "b", "b"] (by decide) (by decide)⟩
